import Mathlib

/-!
Shallow embedding of the chat-api gateway core (src/bot.py, src/botmgr.py,
src/models.py, src/api.py) and proofs about the claims of its specification.

Python values flowing through the streaming protocol are modelled by a small
JSON value type; Python dictionary / attribute access and its exceptions
(KeyError, TypeError, AttributeError) are modelled explicitly, because the
source catches only some of them.
-/

namespace ChatApi

/-- Model of a decoded JSON value (the result of a successful json.loads). -/
inductive Json where
  | null
  | bool (b : Bool)
  | num (n : Int)
  | str (s : String)
  | arr (items : List Json)
  | obj (fields : List (String × Json))
deriving Repr

/-- Model of the Python exceptions that the streaming code can raise.
OpenAIError carries its message and code exactly as in src/_exception.py
(code defaults to 0). -/
inductive PyErr where
  | keyError
  | typeError
  | attributeError
  | nameError
  | assertionError
  | accessTokenInvalid
  | accessTokenExpired
  | openAIError (message : String) (code : Int)
deriving Repr, DecidableEq

/-- Python truthiness of a JSON value: None, False, 0, empty string, empty
list and empty dict are falsy, everything else is truthy. -/
def truthy : Json → Bool
  | .null => false
  | .bool b => b
  | .num n => n != 0
  | .str s => s != ""
  | .arr items => !items.isEmpty
  | .obj fields => !fields.isEmpty

/-- Python dict.get with no default: returns the value, or None when the key
is absent; raises AttributeError when the receiver is not a dict. -/
def pyGet (j : Json) (k : String) : Except PyErr (Option Json) :=
  match j with
  | .obj fields => .ok (fields.lookup k)
  | _ => .error .attributeError

/-- Python dict.get with a default value; raises AttributeError when the
receiver is not a dict. -/
def pyGetD (j : Json) (k : String) (dflt : Json) : Except PyErr Json :=
  match j with
  | .obj fields => .ok ((fields.lookup k).getD dflt)
  | _ => .error .attributeError

/-- Python subscription with a string key: raises KeyError when the key is
absent from a dict and TypeError when the receiver is not a dict. -/
def pyIndex (j : Json) (k : String) : Except PyErr Json :=
  match j with
  | .obj fields =>
    match fields.lookup k with
    | some v => .ok v
    | none => .error .keyError
  | _ => .error .typeError

/-! ## Streaming line parser (src/bot.py, AsyncBot.__send_request) -/

/-- Model of Bot.check_fields (src/bot.py lines 187-192).  The Python body
evaluates the double subscription of data at keys "message" and "content"
and catches only KeyError; subscripting a non-dict value raises TypeError,
which is not caught and propagates to the caller. -/
def check_fields (data : Json) : Except PyErr Bool :=
  match data with
  | .obj fields =>
    match fields.lookup "message" with
    | none => .ok false
    | some (.obj msgFields) =>
      match msgFields.lookup "content" with
      | none => .ok false
      | some _ => .ok true
    | some _ => .error .typeError
  | _ => .error .typeError

/-- Model of the role lookup at src/bot.py line 760: the chained calls
get of "message", then get of "author", then get of "role".  Each get on a
value that is not a dict - in particular on the None returned by a previous
get whose key was absent - raises AttributeError. -/
def roleOf (line : Json) : Except PyErr (Option Json) := do
  let msg ← pyGet line "message"
  match msg with
  | none => .error .attributeError
  | some msgVal =>
    let author ← pyGet msgVal "author"
    match author with
    | none => .error .attributeError
    | some authorVal => pyGet authorVal "role"

/-- Event dictionary yielded by the send-request loop
(src/bot.py lines 778-788). -/
structure Event where
  author : Json
  message : Json
  conversation_id : Json
  parent_id : Json
  model : Json
  finish_details : Json
  end_turn : Json
  recipient : Json
  citations : Json
deriving Repr

/-- Outcome of processing one stream line inside the loop of
AsyncBot.__send_request: the line is skipped, terminates the stream,
yields an event, or raises. -/
inductive LineResult where
  | skip
  | done
  | ev (e : Event)
  | err (e : PyErr)
deriving Repr

/-- Model of the extraction block of AsyncBot.__send_request
(src/bot.py lines 762-788) applied to an object that already passed
check_fields and whose message.author.role equals "assistant". -/
def extractEvent (line : Json) : Except PyErr Event := do
  let cid ← pyIndex line "conversation_id"
  let msg ← pyIndex line "message"
  let pid ← pyIndex msg "id"
  let metadata ← pyGetD msg "metadata" (.obj [])
  -- author = metadata.get of "author" (default empty dict), or-else
  -- the message's own "author" (default empty dict)
  let authorMeta ← pyGetD metadata "author" (.obj [])
  let authorMsg ← pyGetD msg "author" (.obj [])
  let author := if truthy authorMeta then authorMeta else authorMsg
  -- message_exists: message.content truthy, content.get of "parts" truthy,
  -- and the parts list nonempty
  let content ← pyGetD msg "content" .null
  let message ←
    if truthy content then do
      let parts ← pyGetD content "parts" .null
      if truthy parts then
        match parts with
        | .arr items =>
          match items with
          | p :: _ => pure p
          | [] => pure (.str "")
        | _ => pure (.str "")
      else
        pure (.str "")
    else
      pure (.str "")
  let model ← pyGetD metadata "model_slug" .null
  let finishBox ← pyGetD metadata "finish_details" (.obj [("type", .null)])
  let finish ← pyIndex finishBox "type"
  let endTurn ← pyGetD msg "end_turn" (.bool true)
  let recipient ← pyGetD msg "recipient" (.str "all")
  let citations ← pyGetD metadata "citations" (.arr [])
  pure {
    author := author,
    message := message,
    conversation_id := cid,
    parent_id := pid,
    model := model,
    finish_details := finish,
    end_turn := endTurn,
    recipient := recipient,
    citations := citations
  }

/-- Python equality of a looked-up role value with the string literal
"assistant": true exactly when the value is that string (a missing key,
modelled by none, compares unequal, as Python None does). -/
def isAssistant (role : Option Json) : Bool :=
  match role with
  | some (.str s) => s = "assistant"
  | _ => false

/-- Model of the per-object part of the loop body of AsyncBot.__send_request
(src/bot.py lines 757-788), applied to the value parsed from a line:
check_fields failing raises OpenAIError invalid_response; an object whose
message.author.role differs from "assistant" is skipped; otherwise the event
dictionary is extracted and yielded. -/
def processParsed (line : Json) : LineResult :=
  match check_fields line with
  | .error e => .err e
  | .ok false => .err (.openAIError "invalid_response" 0)
  | .ok true =>
    match roleOf line with
    | .error e => .err e
    | .ok role =>
      if isAssistant role then
        match extractEvent line with
        | .error e => .err e
        | .ok e => .ev e
      else
        .skip

/-- Does the character list start with the given pattern? -/
def beginsWith : List Char → List Char → Bool
  | [], _ => true
  | _ :: _, [] => false
  | p :: ps, c :: cs => p == c && beginsWith ps cs

/-- Does the character list contain the given pattern as a contiguous
subsequence?  Model of the Python substring test pat in line. -/
def containsSeq (pat : List Char) : List Char → Bool
  | [] => beginsWith pat []
  | c :: cs => beginsWith pat (c :: cs) || containsSeq pat cs

/-- Model of the prefix-stripping step at src/bot.py lines 748-749: when the
string "data: " occurs anywhere in the line, the first six characters of the
line are removed. -/
def stripData (line : String) : String :=
  if containsSeq "data: ".toList line.toList then ⟨line.toList.drop 6⟩ else line

/-- ASCII lowercase of one character (the relevant fragment of Python
str.lower for this protocol, whose sentinel "internal server error" is
ASCII). -/
def toLowerAscii (c : Char) : Char :=
  if 'A' ≤ c && c ≤ 'Z' then Char.ofNat (c.toNat + 32) else c

/-- Model of Python str.lower on the stream lines. -/
def lowerStr (s : String) : String := ⟨s.toList.map toLowerAscii⟩

/-- Model of the whole loop body of AsyncBot.__send_request for one line
(src/bot.py lines 742-788).  The parsed argument stands for the outcome of
json.loads applied to the line after prefix stripping: none models a
JSONDecodeError (which the source logs and skips), some j a successful
parse. -/
def lineStep (line : String) (parsed : Option Json) : LineResult :=
  if lowerStr line = "internal server error" then
    .err (.openAIError "internal_server_error" 0)
  else if line = "" then
    .skip
  else
    let stripped := stripData line
    if stripped = "[DONE]" then
      .done
    else
      match parsed with
      | none => .skip
      | some j => processParsed j

/-- State threaded through the line loop of AsyncBot.__send_request: the
events yielded so far, the last value of the finish_details variable
(initialised to None at line 739), and the last value of the message
variable (none models the name being still unbound). -/
structure LoopSt where
  events : List Event
  finish : Json
  lastMessage : Option Json
deriving Repr

/-- Model of the line loop of AsyncBot.__send_request (src/bot.py lines
740-788) over a prepared stream.  Each stream element pairs a raw line with
the outcome of json.loads on its stripped form.  Returns the state at loop
exit and the exception, if one was raised. -/
def runLoop : List (String × Option Json) → LoopSt → LoopSt × Option PyErr
  | [], st => (st, none)
  | (line, parsed) :: rest, st =>
    match lineStep line parsed with
    | .skip => runLoop rest st
    | .done => (st, none)
    | .err e => (st, some e)
    | .ev e =>
      runLoop rest
        { events := st.events ++ [e], finish := e.finish_details,
          lastMessage := some e.message }

/-- Is the final finish_details value the string "max_tokens"
(src/bot.py line 790)? -/
def isMaxTokens : Json → Bool
  | .str s => s = "max_tokens"
  | _ => false

/-- Model of AsyncBot.__send_request (src/bot.py lines 673-801) driven by a
prepared line stream.  After the loop, when auto_continue holds and the last
finish_details equals "max_tokens", the source runs message.strip at line
792 - an AttributeError when the accumulated message is not a string, a
NameError when no event was ever yielded - and then calls
self.continue_write with keyword arguments conversation_id, model, timeout,
auto_continue and history_and_training_disabled (lines 793-799).  The
signature of continue_write (line 944) declares parent_id as a required
parameter with no default, and the call site does not pass it, so Python
raises TypeError at that call; the continuation request is never issued.
The result pairs the events yielded to the consumer with the terminal
exception, if any. -/
def sendRequest (steps : List (String × Option Json)) (auto_continue : Bool) :
    List Event × Option PyErr :=
  let (st, errOpt) := runLoop steps { events := [], finish := .null, lastMessage := none }
  match errOpt with
  | some e => (st.events, some e)
  | none =>
    if auto_continue && isMaxTokens st.finish then
      match st.lastMessage with
      | some (.str _) => (st.events, some .typeError)
      | some _ => (st.events, some .attributeError)
      | none => (st.events, some .nameError)
    else
      (st.events, none)

/-! ## Rate limiter (src/botmgr.py lines 17-41) -/

/-- A rate-limit rule: amount admitted per window of the given length in
seconds (the limits library's RateLimitItem). -/
structure RateLimitItem where
  amount : Nat
  windowSeconds : Nat
deriving Repr, DecidableEq

/-- Rule built by RateLimitItemPerMinute applied to 1 (src/botmgr.py
line 20). -/
def rate_limit_per_minute : RateLimitItem := { amount := 1, windowSeconds := 60 }

/-- Rule built by RateLimitItemPerHour applied to 60 (src/botmgr.py
line 21). -/
def rate_limit_per_hour : RateLimitItem := { amount := 60, windowSeconds := 3600 }

/-- Is the hit at time t inside the window of length w that ends at now? -/
def inWindow (w now t : Nat) : Bool := t ≤ now && now < t + w

/-- Number of recorded hits inside the window of length w ending at now. -/
def windowHits (hits : List Nat) (w now : Nat) : Nat :=
  (hits.filter (inWindow w now)).length

/-- Modelled from the spec: the moving-window strategy of the external
limits library (not part of this repository; spec section 4.5 describes it
as a sliding window over a durable keyed store whose test operation is true
iff a hit would be accepted).  The state for one key is the list of accepted
hit timestamps; test accepts iff the count inside the trailing window is
below the rule's amount. -/
def movingWindowTest (rule : RateLimitItem) (hits : List Nat) (now : Nat) : Bool :=
  windowHits hits rule.windowSeconds now < rule.amount

/-- Modelled from the spec: the hit operation of the moving-window strategy;
it records the hit exactly when the window test accepts, and returns
acceptance. -/
def movingWindowHit (rule : RateLimitItem) (hits : List Nat) (now : Nat) :
    Bool × List Nat :=
  if movingWindowTest rule hits now then (true, now :: hits) else (false, hits)

/-- Keyed rate-limit store: timestamps of accepted hits per key (the key is
the account email, in namespace botmgr). -/
def LimiterStore : Type := String → List Nat

/-- Model of test_limit (src/botmgr.py lines 36-37): the moving-window test
is consulted for rate_limit_per_hour only; rate_limit_per_minute is never
passed to the strategy. -/
def test_limit (store : LimiterStore) (now : Nat) (key : String) : Bool :=
  movingWindowTest rate_limit_per_hour (store key) now

/-- Model of hit_limit (src/botmgr.py lines 40-41): the moving-window hit
is recorded against rate_limit_per_hour only. -/
def hit_limit (store : LimiterStore) (now : Nat) (key : String) :
    Bool × LimiterStore :=
  let res := movingWindowHit rate_limit_per_hour (store key) now
  (res.1, fun k => if k = key then res.2 else store k)

/-- The store with no recorded hits. -/
def emptyStore : LimiterStore := fun _ => []

/-- Run a trace of hit attempts (time, key) through hit_limit, returning the
final store. -/
def runHits (store : LimiterStore) : List (Nat × String) → LimiterStore
  | [] => store
  | (t, k) :: rest => runHits (hit_limit store t k).2 rest

/-! ## Token lifecycle and pool (src/botmgr.py) -/

/-- An account's stored access token as seen through jwt.decode with the
signature check disabled: missing models a falsy value (None or the empty
string), badToken a truthy string that fails to decode or has no exp claim,
valid exp a token that decodes with that exp claim. -/
inductive StoredToken where
  | missing
  | badToken
  | valid (exp : Int)
deriving Repr, DecidableEq

/-- Model of ApiBotManager.token_expire (src/botmgr.py lines 87-93): the exp
claim of the decoded token, or 0 when decoding raises. -/
def token_expire : StoredToken → Int
  | .valid e => e
  | _ => 0

/-- One live AsyncBot as held in the pool: the fields the manager reads. -/
structure BotM where
  email : String
  access_token : StoredToken
  puid : Option String
deriving Repr, DecidableEq

/-- Model of Bot.check_access_token (src/bot.py lines 78-85), run by the
AsyncBot constructor: an undecodable token raises AccessTokenError and a
token with exp below the current time raises AccessTokenExpiredError. -/
def check_access_token (token : StoredToken) (now : Int) : Option PyErr :=
  match token with
  | .valid e => if e < now then some .accessTokenExpired else none
  | _ => some .accessTokenInvalid

/-- Model of Bot.update (src/bot.py lines 87-93): the token is replaced when
truthy and different; the puid is replaced when truthy and different. -/
def botUpdate (bot : BotM) (token : StoredToken) (puid : Option String) : BotM :=
  let bot1 :=
    match token with
    | .missing => bot
    | t => if bot.access_token ≠ t then { bot with access_token := t } else bot
  match puid with
  | none => bot1
  | some p =>
    if p = "" then bot1
    else if bot1.puid ≠ some p then { bot1 with puid := some p } else bot1

/-- Python dict assignment on an association list: an existing key keeps its
insertion position and gets the new value; a new key is appended. -/
def dictSet {α : Type} (d : List (String × α)) (k : String) (v : α) :
    List (String × α) :=
  if (d.lookup k).isSome then
    d.map (fun p => if p.1 = k then (k, v) else p)
  else
    d ++ [(k, v)]

/-- Model of ApiBotManager.update_bot (src/botmgr.py lines 184-197): an
existing pool entry is updated in place; otherwise a new AsyncBot is
constructed - whose constructor validates the token - and appended under its
email. -/
def update_bot (pool : List (String × BotM)) (email : String)
    (token : StoredToken) (puid : Option String) (now : Int) :
    Except PyErr (List (String × BotM)) :=
  match pool.lookup email with
  | some bot => .ok (dictSet pool email (botUpdate bot token puid))
  | none =>
    match check_access_token token now with
    | some e => .error e
    | none => .ok (pool ++ [(email, { email := email, access_token := token, puid := puid })])

/-- Model of ApiBotManager.remove_bot (src/botmgr.py lines 199-202) as it
executes when actually awaited: the session is closed and its pool entry
deleted. -/
def remove_bot (pool : List (String × BotM)) (email : String) :
    List (String × BotM) :=
  pool.filter (fun p => p.1 != email)

/-- One entry of ApiBotManager.accounts (src/botmgr.py lines 73-85). -/
structure AccountRec where
  email : String
  access_token : StoredToken
  puid : Option String
deriving Repr, DecidableEq

/-- State of the manager as touched by check_account: the account map (in
insertion order), the session pool, and the login backlog wait_auth. -/
structure MgrState where
  accounts : List AccountRec
  apibot_pool : List (String × BotM)
  wait_auth : List (String × Int)
deriving Repr, DecidableEq

/-- The per-account loop of ApiBotManager.check_account (src/botmgr.py lines
139-151).  When exp - now is below one hour the source executes
self.remove_bot(email) WITHOUT await (line 148): remove_bot is a coroutine
function, so the bare call only creates a coroutine object that is never
scheduled - its body never runs and the pool is left unchanged; the model
reflects that by not touching the pool in this branch.  An exception from
update_bot aborts the loop, keeping the mutations already applied. -/
def checkAccountGo (now : Int) :
    List AccountRec → List (String × Int) → List (String × BotM) →
    List (String × Int) × List (String × BotM) × Option PyErr
  | [], wa, pool => (wa, pool, none)
  | acct :: rest, wa, pool =>
    match acct.access_token with
    | .missing => checkAccountGo now rest (dictSet wa acct.email 0) pool
    | tok =>
      let exp := token_expire tok
      if exp - now < 60 * 60 then
        checkAccountGo now rest (dictSet wa acct.email (exp - now)) pool
      else
        match update_bot pool acct.email tok acct.puid now with
        | .error e => (dictSet wa acct.email (exp - now), pool, some e)
        | .ok pool2 => checkAccountGo now rest (dictSet wa acct.email (exp - now)) pool2

/-- Model of ApiBotManager.check_account (src/botmgr.py lines 136-153): the
per-account loop followed by the stable ascending re-sort of wait_auth by
remaining seconds (skipped when an exception aborted the loop). -/
def check_accountRun (now : Int) (st : MgrState) : MgrState × Option PyErr :=
  let res := checkAccountGo now st.accounts st.wait_auth st.apibot_pool
  match res.2.2 with
  | some e => ({ st with wait_auth := res.1, apibot_pool := res.2.1 }, some e)
  | none =>
    let sortedWa := res.1.mergeSort (fun a b => a.2 ≤ b.2)
    ({ st with wait_auth := sortedWa, apibot_pool := res.2.1 }, none)

/-! ## Scheduler retry kernel (src/botmgr.py, ApiBotManager.work) -/

/-- Outcome of one upstream call made by work: the generator completes
normally (resp is the last yielded dictionary, or none when nothing was
yielded, leaving the Python variable as None), or it raises an OpenAIError,
or it raises some other exception. -/
inductive CallOutcome where
  | success (resp : Option (List (String × Json)))
  | openaiErr (message : String) (code : Int)
  | otherErr
deriving Repr

/-- Result of ApiBotManager.work: the resp dictionary with email attached,
or False paired with a reason string. -/
inductive WorkRes where
  | success (resp : List (String × Json))
  | failure (reason : String)
deriving Repr

/-- Model of ApiBotManager.work (src/botmgr.py lines 271-309).  The env
trace supplies one entry per iteration of the while loop: none models
get_available_apibot returning None, upon which the loop sleeps a second
and decrements timeout, returning the reason "timeout" once it is no longer
positive; some (email, outcome) models obtaining the session with that
email, committing the rate-limit hit, and the upstream call ending with the
given outcome.  OpenAIError is mapped to the reasons conversation_not_found
(code 404), too_many_requests (code 429) or server_error; any other
exception - including the TypeError from assigning resp["email"] when the
generator yielded nothing - increments retry and gives up with "max_retry"
once retry exceeds 3.  none is returned when the trace ends with the loop
still running. -/
def work (env : List (Option (String × CallOutcome))) (timeout : Int)
    (retry : Nat) : Option WorkRes :=
  match env with
  | [] => none
  | step :: rest =>
    match step with
    | none =>
      if timeout > 0 then work rest (timeout - 1) retry
      else some (.failure "timeout")
    | some (email, outcome) =>
      match outcome with
      | .openaiErr _ code =>
        if code = 404 then some (.failure "conversation_not_found")
        else if code = 429 then some (.failure "too_many_requests")
        else some (.failure "server_error")
      | .otherErr =>
        if retry + 1 > 3 then some (.failure "max_retry")
        else work rest timeout (retry + 1)
      | .success none =>
        if retry + 1 > 3 then some (.failure "max_retry")
        else work rest timeout (retry + 1)
      | .success (some resp) =>
        some (.success (dictSet resp "email" (.str email)))

/-! ## Conversation binder (src/botmgr.py and src/models.py) -/

/-- A row of the users table (src/models.py lines 84-96). -/
structure UserRow where
  id : Nat
  openid : String
  conversation_id : String
deriving Repr, DecidableEq

/-- A row of the conversations table (src/models.py lines 41-54), restricted
to the columns the binder reads and writes. -/
structure ConvRow where
  conversation_id : String
  current_node : String
  owner_email : String
  user_id : Nat
deriving Repr, DecidableEq

/-- The relational store as the binder sees it; nextUserId models the
autoincrement primary key assigned at flush time. -/
structure Db where
  users : List UserRow
  convs : List ConvRow
  nextUserId : Nat
deriving Repr, DecidableEq

/-- Update the first list element satisfying the predicate (the single row
matched by scalar_one_or_none / the loaded relationship object). -/
def updateFirst {α : Type} (p : α → Bool) (f : α → α) : List α → List α
  | [] => []
  | x :: xs => if p x then f x :: xs else x :: updateFirst p f xs

/-- User.get_by_openid_with_session (src/models.py lines 105-109). -/
def findUser (db : Db) (openid : String) : Option UserRow :=
  db.users.find? (fun u => u.openid == openid)

/-- The SQLAlchemy relationship User.conversation (src/models.py lines
90-96): the conversations row joined on the given conversation_id. -/
def loadConv (db : Db) (cid : String) : Option ConvRow :=
  db.convs.find? (fun c => c.conversation_id == cid)

/-- Model of ApiBotManager.record_chat (src/botmgr.py lines 231-262), given
the conversation_id and parent_id fields read from the response dictionary
at lines 235-236.  A falsy openid returns immediately; a falsy email fails
the assertion at line 234.  For an existing user, the relationship
user.conversation was eagerly loaded when the user row was fetched, joined
on the user's OLD conversation_id; the assignment of the new
conversation_id at line 251 does not reload it.  So when that old-keyed row
exists, its current_node is updated - even though the user now points at
the new conversation_id - and the else branch creating a row for the new
conversation_id is not taken. -/
def record_chat (email openid conversation_id parent_id : String) (db : Db) :
    Except PyErr Db :=
  if openid = "" then .ok db
  else if email = "" then .error .assertionError
  else
    match findUser db openid with
    | none =>
      let uid := db.nextUserId
      .ok { users := db.users ++ [{ id := uid, openid := openid, conversation_id := conversation_id }],
            convs := db.convs ++ [{ conversation_id := conversation_id, current_node := parent_id, owner_email := email, user_id := uid }],
            nextUserId := uid + 1 }
    | some user =>
      let snapshot := loadConv db user.conversation_id
      let users2 := updateFirst (fun u => u.openid == openid)
        (fun u => { u with conversation_id := conversation_id }) db.users
      match snapshot with
      | some conv =>
        let convs2 := updateFirst (fun c => c.conversation_id == conv.conversation_id)
          (fun c => { c with current_node := parent_id }) db.convs
        .ok { db with users := users2, convs := convs2 }
      | none =>
        let newRow : ConvRow := { conversation_id := conversation_id, current_node := parent_id, owner_email := email, user_id := user.id }
        .ok { db with users := users2, convs := db.convs ++ [newRow] }

/-- Model of ApiBotManager.new_conversation (src/botmgr.py lines 264-269):
the user's conversation_id is set to the empty string when the user row
exists. -/
def new_conversation (openid : String) (db : Db) : Db :=
  let users2 := updateFirst (fun u => u.openid == openid)
    (fun u => { u with conversation_id := "" }) db.users
  { db with users := users2 }

/-- The dictionary returned by User.get_chat_info. -/
structure ChatInfo where
  user_id : Option Nat
  email : Option String
  conversation_id : Option String
  parent_id : Option String
deriving Repr, DecidableEq

/-- Model of User.get_chat_info (src/models.py lines 119-142): all fields
are None unless the user exists; email, conversation_id and parent_id stay
None unless the joined conversation row exists too. -/
def get_chat_info (db : Db) (openid : String) : ChatInfo :=
  match findUser db openid with
  | none => { user_id := none, email := none, conversation_id := none, parent_id := none }
  | some user =>
    match loadConv db user.conversation_id with
    | none => { user_id := some user.id, email := none, conversation_id := none, parent_id := none }
    | some conv =>
      { user_id := some user.id, email := some conv.owner_email,
        conversation_id := some conv.conversation_id, parent_id := some conv.current_node }

/-- Truthiness of an optional Python string: None and the empty string are
falsy. -/
def truthyOpt : Option String → Bool
  | none => false
  | some s => s != ""

/-- Model of the failure branch of ApiBotManager.prompt (src/botmgr.py
lines 354-358): the reason is logged, and new_conversation runs only when
openid is truthy AND the reason string equals "conversation_missing". -/
def promptHandleFailure (openid : Option String) (reason : String) (db : Db) : Db :=
  if truthyOpt openid && reason == "conversation_missing" then
    new_conversation (openid.getD "") db
  else
    db

/-! ## Public request path (src/botmgr.py api_request, src/api.py) -/

/-- Python dict.pop with a default on an association list: the key is
removed when present. -/
def dictRemove (d : List (String × Json)) (k : String) : List (String × Json) :=
  d.filter (fun p => p.1 != k)

/-- Model of ApiBotManager.api_request (src/botmgr.py lines 311-322) applied
to the result of work.  The source executes resp.pop("email", None) at line
318 BEFORE the falsy test at line 319; when work failed, resp is the boolean
False, which has no pop attribute, so AttributeError is raised.  On success,
the falsy branch only logs and the function falls through returning None
(modelled by none); otherwise it returns resp.get("message", ""). -/
def api_request (res : WorkRes) : Except PyErr (Option Json) :=
  match res with
  | .failure _ => .error .attributeError
  | .success resp =>
    let resp2 := dictRemove resp "email"
    if resp2.isEmpty then .ok none
    else .ok (some ((resp2.lookup "message").getD (.str "")))

/-- Outcome of one public endpoint invocation. -/
inductive EdgeResult where
  | http404 (detail : String)
  | ok (body : Json)
  | unhandled (e : PyErr)
deriving Repr

/-- Model of the completions endpoint (src/api.py lines 130-136) around
api_request: a falsy response raises HTTPException 404 with detail
"No response found", a truthy one is wrapped into the completion body
(wrapping not modelled), and an exception escaping api_request propagates
unhandled. -/
def completions (res : WorkRes) : EdgeResult :=
  match api_request res with
  | .error e => .unhandled e
  | .ok none => .http404 "No response found"
  | .ok (some t) => if truthy t then .ok t else .http404 "No response found"

/-! ## Request construction (src/bot.py, AsyncBot.ask / post_messages) -/

/-- The request body fields assembled by ask and post_messages (the messages
list is omitted; conversation_id none serialises as JSON null). -/
structure PostData where
  action : String
  conversation_id : Option String
  parent_message_id : String
  model : String
  history_and_training_disabled : Bool
deriving Repr, DecidableEq

/-- Model of AsyncBot.ask (src/bot.py lines 879-942): after building the
user message, the call raises TypeError when exactly one of conversation_id
and parent_id is truthy (lines 918-921) - before any upstream request is
issued; otherwise parent_id falls back to a fresh UUID (line 922, freshUuid
stands for str applied to uuid.uuid4), model falls back to
"text-davinci-002-render-sha", and the body is assembled (lines 924-933)
with conversation_id carried through unchanged. -/
def ask (conversation_id parent_id : Option String) (model : String)
    (freshUuid : String) (histDisabled : Bool) : Except PyErr PostData :=
  if truthyOpt parent_id != truthyOpt conversation_id then .error .typeError
  else
    let pid := if truthyOpt parent_id then parent_id.getD "" else freshUuid
    let m := if model != "" then model else "text-davinci-002-render-sha"
    .ok { action := "next", conversation_id := conversation_id,
          parent_message_id := pid, model := m,
          history_and_training_disabled := histDisabled }

/-- Model of AsyncBot.post_messages (src/bot.py lines 803-877): the call
raises TypeError when exactly one of conversation_id and parent_id is
truthy (lines 851-854); when both are falsy, parent_id is replaced by a
fresh UUID (lines 855-856); the body is assembled at lines 858-867 with
conversation_id carried through unchanged. -/
def post_messages (conversation_id parent_id : Option String) (model : String)
    (freshUuid : String) (histDisabled : Bool) : Except PyErr PostData :=
  if truthyOpt parent_id != truthyOpt conversation_id then .error .typeError
  else
    let pid :=
      if !truthyOpt conversation_id && !truthyOpt parent_id then freshUuid
      else parent_id.getD ""
    let m := if model != "" then model else "text-davinci-002-render-sha"
    .ok { action := "next", conversation_id := conversation_id,
          parent_message_id := pid, model := m,
          history_and_training_disabled := histDisabled }

/-! ## Theorems

Helper lemmas come first; the claim theorems follow, one per claim, each
with its witness or counterexample where required. -/

/-- A list starting with pat contains pat as a contiguous subsequence. -/
theorem beginsWith_containsSeq (pat l : List Char) (h : beginsWith pat l = true) :
    containsSeq pat l = true := by
  cases l with
  | nil => simpa [containsSeq] using h
  | cons c cs => simp [containsSeq, h]

/-- beginsWith holds of a list that literally starts with the pattern. -/
theorem beginsWith_append (pat rest : List Char) :
    beginsWith pat (pat ++ rest) = true := by
  induction pat with
  | nil => simp [beginsWith]
  | cons p ps ih => simp [beginsWith, ih]

/-- Claim C5, counterexample.  The claim states that a parsed object whose
message.author is absent produces no events (and that the parser never
raises an unhandled exception); but on the object with a message carrying
content and no author the parser raises AttributeError, because the chained
get of "author" returns None and None has no get attribute. -/
theorem processParsed_missing_author_raises :
    processParsed (.obj [("message", .obj [("content", .obj [("parts", .arr [.str "x"])]), ("id", .str "m")])]) =
      .err .attributeError := rfl

/-- Claim C5, amended.  Lines that fail JSON parsing produce no event (the
loop skips them); a parsed object carrying message.content and a
message.author dictionary whose role is not "assistant" produces no event;
but an object carrying message.content while lacking message.author raises
AttributeError, so the parser is not exception-free. -/
theorem parser_skip_and_raise_cases :
    (∀ (line : String) (e : Event), lineStep line none ≠ .ev e) ∧
    (∀ (fs ms as : List (String × Json)),
      fs.lookup "message" = some (.obj ms) →
      (ms.lookup "content").isSome = true →
      ms.lookup "author" = some (.obj as) →
      isAssistant (as.lookup "role") = false →
      processParsed (.obj fs) = .skip) ∧
    (∀ (fs ms : List (String × Json)),
      fs.lookup "message" = some (.obj ms) →
      (ms.lookup "content").isSome = true →
      ms.lookup "author" = none →
      processParsed (.obj fs) = .err .attributeError) := by
  refine ⟨?_, ?_, ?_⟩
  · intro line e
    simp only [lineStep]
    split
    · exact fun h => nomatch h
    · split
      · exact fun h => nomatch h
      · split
        · exact fun h => nomatch h
        · exact fun h => nomatch h
  · intro fs ms as h1 h2 h3 h4
    obtain ⟨c, hc⟩ := Option.isSome_iff_exists.mp h2
    simp [processParsed, check_fields, roleOf, pyGet, h1, hc, h3, h4,
      Bind.bind, Except.bind]
  · intro fs ms h1 h2 h3
    obtain ⟨c, hc⟩ := Option.isSome_iff_exists.mp h2
    simp [processParsed, check_fields, roleOf, pyGet, h1, hc, h3,
      Bind.bind, Except.bind]

/-- Claim C5, witness for the amended theorem at concrete inputs. -/
theorem parser_skip_and_raise_cases_witness :
    lineStep "garbage" none ≠
      .ev { author := .null, message := .null, conversation_id := .null,
            parent_id := .null, model := .null, finish_details := .null,
            end_turn := .null, recipient := .null, citations := .null } ∧
    processParsed (.obj [("message", .obj [("content", .null), ("author", .obj [("role", .str "system")])])]) = .skip ∧
    processParsed (.obj [("message", .obj [("content", .null), ("id", .str "m2")])]) = .err .attributeError := by
  refine ⟨parser_skip_and_raise_cases.1 "garbage" _, ?_, ?_⟩
  · exact parser_skip_and_raise_cases.2.1
      [("message", .obj [("content", .null), ("author", .obj [("role", .str "system")])])]
      [("content", .null), ("author", .obj [("role", .str "system")])]
      [("role", .str "system")] rfl rfl rfl rfl
  · exact parser_skip_and_raise_cases.2.2
      [("message", .obj [("content", .null), ("id", .str "m2")])]
      [("content", .null), ("id", .str "m2")] rfl rfl rfl

/-- Claim C6, counterexample.  The claim states that an object lacking
message.content is ignored with no error; the source instead raises
OpenAIError invalid_response from the check_fields guard, aborting the
stream. -/
theorem processParsed_missing_content_aborts :
    processParsed (.obj [("message", .obj [("author", .obj [("role", .str "assistant")])])]) =
      .err (.openAIError "invalid_response" 0) := rfl

/-- Claim C6, amended.  Every parsed object whose message is a dictionary
lacking the content key makes the parser raise OpenAIError
invalid_response (code 0), terminating the stream, instead of being
ignored. -/
theorem processParsed_missing_content_invalid (fs ms : List (String × Json))
    (hmsg : fs.lookup "message" = some (.obj ms))
    (hcontent : ms.lookup "content" = none) :
    processParsed (.obj fs) = .err (.openAIError "invalid_response" 0) := by
  simp [processParsed, check_fields, hmsg, hcontent]

/-- Claim C6, witness for the amended theorem at a concrete input. -/
theorem processParsed_missing_content_invalid_witness :
    processParsed (.obj [("message", .obj [("id", .str "m3")])]) =
      .err (.openAIError "invalid_response" 0) :=
  processParsed_missing_content_invalid [("message", .obj [("id", .str "m3")])]
    [("id", .str "m3")] rfl rfl

/-- Claim C8, counterexample.  The claim states that a line not starting
with "data: " is passed on unmodified even if it contains "data: "
elsewhere; but the source tests substring containment, so the line
"x data: y" - which does not start with the marker - still loses its first
six characters. -/
theorem stripData_midline :
    beginsWith "data: ".toList "x data: y".toList = false ∧
    stripData "x data: y" = ": y" ∧
    ("x data: y" : String) ≠ ": y" := ⟨rfl, rfl, by decide⟩

/-- Claim C8, amended.  A line starting with "data: " has exactly that
prefix removed; a line not containing "data: " anywhere is passed on
unmodified; but any line containing "data: " - at the start or not - has
its first six characters removed. -/
theorem stripData_cases (line : String) :
    (∀ rest : List Char, line.toList = "data: ".toList ++ rest → stripData line = ⟨rest⟩) ∧
    (containsSeq "data: ".toList line.toList = false → stripData line = line) ∧
    (containsSeq "data: ".toList line.toList = true → stripData line = ⟨line.toList.drop 6⟩) := by
  refine ⟨fun rest h => ?_, fun h => ?_, fun h => ?_⟩
  · have hb : beginsWith "data: ".toList line.toList = true := by
      rw [h]; exact beginsWith_append _ _
    have hc := beginsWith_containsSeq _ _ hb
    unfold stripData
    rw [if_pos hc, h]
    rfl
  · unfold stripData
    rw [if_neg (by simp only [Bool.not_eq_true]; exact h)]
  · unfold stripData
    rw [if_pos h]

/-- Claim C8, witness for the amended theorem at concrete inputs. -/
theorem stripData_cases_witness :
    stripData "data: hi" = "hi" ∧ stripData "garbage" = "garbage" := by
  constructor
  · exact (stripData_cases "data: hi").1 "hi".toList rfl
  · exact (stripData_cases "garbage").2.1 rfl

/-- Upstream stream object: a complete assistant event whose
metadata.finish_details.type is "max_tokens". -/
def jMaxTokens : Json := .obj [
  ("conversation_id", .str "c1"),
  ("message", .obj [
    ("id", .str "m1"),
    ("author", .obj [("role", .str "assistant")]),
    ("content", .obj [("content_type", .str "text"), ("parts", .arr [.str "partial answer"])]),
    ("metadata", .obj [("model_slug", .str "text-davinci-002-render-sha"),
                       ("finish_details", .obj [("type", .str "max_tokens")])])])]

/-- The event the parser extracts from jMaxTokens. -/
def evMaxTokens : Event := {
  author := .obj [("role", .str "assistant")],
  message := .str "partial answer",
  conversation_id := .str "c1",
  parent_id := .str "m1",
  model := .str "text-davinci-002-render-sha",
  finish_details := .str "max_tokens",
  end_turn := .bool true,
  recipient := .str "all",
  citations := .arr [] }

/-- Claim C7.  On a stream whose final event carries
finish_details "max_tokens", a request with auto_continue true raises
TypeError at the continuation call - continue_write is invoked without its
required parent_id argument (src/bot.py lines 793-799 against the signature
at line 944) - so no continuation text is ever produced and no final
accumulated text of the claimed shape exists; the same stream with
auto_continue false completes cleanly with the single event. -/
theorem sendRequest_max_tokens_raises :
    sendRequest [("data: x", some jMaxTokens), ("data: [DONE]", none)] true =
      ([evMaxTokens], some .typeError) ∧
    sendRequest [("data: x", some jMaxTokens), ("data: [DONE]", none)] false =
      ([evMaxTokens], none) := ⟨rfl, rfl⟩

/-- Claim C9.  When work fails (its first component is the boolean False),
api_request executes resp.pop("email", None) before the falsy test
(src/botmgr.py line 318), raising AttributeError; the completions endpoint
therefore propagates an unhandled exception instead of answering 404 for
any of the scheduler's failure reasons.  On a successful result the message
text is extracted as the claim describes. -/
theorem api_request_failure_raises :
    api_request (.failure "timeout") = .error .attributeError ∧
    api_request (.failure "conversation_not_found") = .error .attributeError ∧
    api_request (.failure "too_many_requests") = .error .attributeError ∧
    api_request (.failure "server_error") = .error .attributeError ∧
    api_request (.failure "max_retry") = .error .attributeError ∧
    completions (.failure "timeout") = .unhandled .attributeError ∧
    completions (.success [("message", .str "hi"), ("email", .str "e1")]) = .ok (.str "hi") :=
  ⟨rfl, rfl, rfl, rfl, rfl, rfl, rfl⟩

/-- Claim C10, counterexample.  The claim says that when both
conversation_id and parent_id are unset (empty counts as unset), the
request carries conversation_id null; but a call passing the empty string
for both sends conversation_id as the empty string - modelled by some "" -
not as null (modelled by none).  The fresh-UUID part does hold here. -/
theorem ask_empty_conversation_id_not_null :
    ask (some "") (some "") "" "uuid-1" true =
      .ok { action := "next", conversation_id := some "", parent_message_id := "uuid-1",
            model := "text-davinci-002-render-sha", history_and_training_disabled := true } ∧
    (some "" : Option String) ≠ none := ⟨rfl, by decide⟩

/-- Claim C10, amended.  In both ask and post_messages: when exactly one of
conversation_id and parent_id is truthy the call raises TypeError before
any request is issued; when both are falsy the request carries the fresh
UUID as parent_message_id and the conversation_id argument unchanged - so
null exactly when the argument is None, while an explicit empty string is
sent as the empty string. -/
theorem ask_post_messages_validation
    (cid pid : Option String) (model uuid : String) (hd : Bool) :
    (truthyOpt pid ≠ truthyOpt cid →
      ask cid pid model uuid hd = .error .typeError ∧
      post_messages cid pid model uuid hd = .error .typeError) ∧
    (truthyOpt pid = false → truthyOpt cid = false →
      (∃ d, ask cid pid model uuid hd = .ok d ∧
        d.parent_message_id = uuid ∧ d.conversation_id = cid) ∧
      (∃ d, post_messages cid pid model uuid hd = .ok d ∧
        d.parent_message_id = uuid ∧ d.conversation_id = cid)) := by
  constructor
  · intro hne
    have hbne : (truthyOpt pid != truthyOpt cid) = true := by
      simpa [bne_iff_ne] using hne
    constructor
    · simp [ask, hbne]
    · simp [post_messages, hbne]
  · intro hp hc
    have hbne : (truthyOpt pid != truthyOpt cid) = false := by
      simp [hp, hc]
    constructor
    · exact ⟨{ action := "next", conversation_id := cid, parent_message_id := uuid,
               model := if model != "" then model else "text-davinci-002-render-sha",
               history_and_training_disabled := hd },
             by simp [ask, hbne, hp, hc], rfl, rfl⟩
    · exact ⟨{ action := "next", conversation_id := cid, parent_message_id := uuid,
               model := if model != "" then model else "text-davinci-002-render-sha",
               history_and_training_disabled := hd },
             by simp [post_messages, hbne, hp, hc], rfl, rfl⟩

/-- Claim C10, witness for the amended theorem at concrete inputs. -/
theorem ask_post_messages_validation_witness :
    (ask (some "c9") none "" "u9" true = .error .typeError ∧
     post_messages (some "c9") none "" "u9" true = .error .typeError) ∧
    (∃ d, ask none none "" "u9" true = .ok d ∧
      d.parent_message_id = "u9" ∧ d.conversation_id = none) :=
  ⟨(ask_post_messages_validation (some "c9") none "" "u9" true).1 (by decide),
   ((ask_post_messages_validation none none "" "u9" true).2 rfl rfl).1⟩

/-- Filtering with a weaker predicate keeps at least as many elements. -/
theorem filter_length_mono_of_imp {α : Type} {p q : α → Bool} (l : List α)
    (h : ∀ x ∈ l, p x = true → q x = true) :
    (l.filter p).length ≤ (l.filter q).length := by
  induction l with
  | nil => simp
  | cons x xs ih =>
    have hx := h x (List.mem_cons_self x xs)
    have ht : ∀ y ∈ xs, p y = true → q y = true :=
      fun y hy => h y (List.mem_cons_of_mem x hy)
    by_cases hp : p x = true
    · simp only [List.filter_cons, hp, hx hp, if_true, List.length_cons]
      exact Nat.succ_le_succ (ih ht)
    · have hp2 : p x = false := by simpa using hp
      cases hq : q x with
      | false => simp only [List.filter_cons, hp2, hq]; simpa using ih ht
      | true =>
        simp only [List.filter_cons, hp2, hq, if_true, List.length_cons]
        exact Nat.le_succ_of_le (ih ht)

/-- Counting window hits of a cons. -/
theorem windowHits_cons (t : Nat) (hits : List Nat) (w now : Nat) :
    windowHits (t :: hits) w now =
      (if inWindow w now t then 1 else 0) + windowHits hits w now := by
  simp only [windowHits, List.filter_cons]
  cases h : inWindow w now t <;> simp [h, Nat.add_comm]

/-- Appending a hit admitted by the window test preserves the window bound,
provided every recorded hit is no later than the new one. -/
theorem windowHits_cons_le (hits : List Nat) (t w amount now : Nat)
    (hle : ∀ s ∈ hits, s ≤ t)
    (hcount : windowHits hits w t < amount)
    (hbound : windowHits hits w now ≤ amount) :
    windowHits (t :: hits) w now ≤ amount := by
  rw [windowHits_cons]
  cases hin : inWindow w now t with
  | false => simpa using hbound
  | true =>
    have ht : t ≤ now ∧ now < t + w := by
      simpa [inWindow, Bool.and_eq_true, decide_eq_true_eq] using hin
    have h1 : windowHits hits w now ≤ windowHits hits w t := by
      apply filter_length_mono_of_imp
      intro s hs hswin
      have hsw : s ≤ now ∧ now < s + w := by
        simpa [inWindow, Bool.and_eq_true, decide_eq_true_eq] using hswin
      simp only [inWindow, Bool.and_eq_true, decide_eq_true_eq]
      exact ⟨hle s hs, lt_of_le_of_lt ht.1 hsw.2⟩
    rw [show (if (true : Bool) = true then 1 else 0) = 1 from rfl]
    omega

/-- The per-key store produced by hit_limit, written out. -/
theorem hit_limit_store_eq (store : LimiterStore) (t : Nat) (k key : String) :
    (hit_limit store t k).2 key =
      if key = k then
        (if movingWindowTest rate_limit_per_hour (store k) t then t :: store k else store k)
      else store key := by
  unfold hit_limit movingWindowHit
  by_cases hk : key = k <;>
    by_cases htest : movingWindowTest rate_limit_per_hour (store k) t = true <;>
      simp [hk, htest]

/-- Every timestamp in the store after a hit is the new time or an old
timestamp of the same key. -/
theorem mem_hit_limit_store (store : LimiterStore) (t : Nat) (k key : String)
    (s : Nat) (hs : s ∈ (hit_limit store t k).2 key) :
    s = t ∨ s ∈ store key := by
  rw [hit_limit_store_eq] at hs
  by_cases hk : key = k
  · rw [if_pos hk] at hs
    by_cases htest : movingWindowTest rate_limit_per_hour (store k) t = true
    · rw [if_pos htest] at hs
      rcases List.mem_cons.mp hs with h | h
      · exact Or.inl h
      · exact Or.inr (hk ▸ h)
    · rw [if_neg htest] at hs
      exact Or.inr (hk ▸ hs)
  · rw [if_neg hk] at hs
    exact Or.inr hs

/-- hit_limit keeps every key below 60 hits per trailing hour, provided the
store already satisfied the bound and records no time after t. -/
theorem hit_limit_store_bound (store : LimiterStore) (t : Nat) (k : String)
    (hle : ∀ s ∈ store k, s ≤ t)
    (hbound : ∀ key now, windowHits (store key) 3600 now ≤ 60) :
    ∀ key now, windowHits ((hit_limit store t k).2 key) 3600 now ≤ 60 := by
  intro key now
  rw [hit_limit_store_eq]
  by_cases hk : key = k
  · rw [if_pos hk]
    by_cases htest : movingWindowTest rate_limit_per_hour (store k) t = true
    · rw [if_pos htest]
      have hcount : windowHits (store k) 3600 t < 60 := by
        simpa [movingWindowTest, rate_limit_per_hour] using htest
      exact windowHits_cons_le (store k) t 3600 60 now hle hcount (hbound k now)
    · rw [if_neg htest]; exact hbound k now
  · rw [if_neg hk]; exact hbound key now

/-- Runs of the limiter from a bounded store with nondecreasing request
times keep every key below 60 hits in every trailing hour. -/
theorem runHits_bound (trace : List (Nat × String)) :
    ∀ store : LimiterStore,
      trace.Pairwise (fun a b => a.1 ≤ b.1) →
      (∀ key s e, s ∈ store key → e ∈ trace → s ≤ e.1) →
      (∀ key now, windowHits (store key) 3600 now ≤ 60) →
      ∀ key now, windowHits (runHits store trace key) 3600 now ≤ 60 := by
  induction trace with
  | nil =>
    intro store _ _ hbound key now
    simpa [runHits] using hbound key now
  | cons e rest ih =>
    obtain ⟨t, k⟩ := e
    intro store hpw hle hbound key now
    have hrest : rest.Pairwise (fun a b => a.1 ≤ b.1) := (List.pairwise_cons.mp hpw).2
    have hthead : ∀ e2 ∈ rest, t ≤ e2.1 := (List.pairwise_cons.mp hpw).1
    have hstep : runHits store ((t, k) :: rest) key = runHits (hit_limit store t k).2 rest key := rfl
    rw [hstep]
    apply ih
    · exact hrest
    · intro key2 s e2 hs he2
      rcases mem_hit_limit_store store t k key2 s hs with h | h
      · exact h ▸ hthead e2 he2
      · exact hle key2 s e2 h (List.mem_cons_of_mem _ he2)
    · apply hit_limit_store_bound
      · intro s hs
        exact hle k s (t, k) hs (List.mem_cons_self _ _)
      · exact hbound

/-- Claim C1, counterexample.  The claim says the limiter applies both
rules and never admits more than one hit per minute per account; but
hit_limit consults only the hourly rule, so two hits one second apart on
the same account are both admitted - and the per-minute rule would have
rejected the second one. -/
theorem hit_limit_two_hits_one_minute :
    (hit_limit emptyStore 0 "a").1 = true ∧
    (hit_limit (hit_limit emptyStore 0 "a").2 1 "a").1 = true ∧
    movingWindowTest rate_limit_per_minute ((hit_limit emptyStore 0 "a").2 "a") 1 = false :=
  ⟨rfl, rfl, rfl⟩

/-- Claim C1, amended.  The limiter applies only the 60-per-hour rule: the
hit operation agrees with the test operation (both consult
rate_limit_per_hour), and over any trace of requests with nondecreasing
times it never admits more than 60 hits per account within any trailing
hour - but it does not enforce the 1-per-minute rule. -/
theorem limiter_hour_rule_only
    (trace : List (Nat × String))
    (hmono : trace.Pairwise (fun a b => a.1 ≤ b.1)) :
    (∀ store now key, (hit_limit store now key).1 = test_limit store now key) ∧
    (∀ key now, windowHits (runHits emptyStore trace key) 3600 now ≤ 60) := by
  constructor
  · intro store now key
    unfold hit_limit movingWindowHit test_limit
    by_cases htest : movingWindowTest rate_limit_per_hour (store key) now = true <;>
      simp [htest]
  · intro key now
    apply runHits_bound trace emptyStore hmono
    · intro key2 s e hs
      simp [emptyStore] at hs
    · intro key2 now2
      simp [windowHits, emptyStore]

/-- Claim C1, witness for the amended theorem at concrete inputs. -/
theorem limiter_hour_rule_only_witness :
    ((hit_limit emptyStore 5 "w").1 = test_limit emptyStore 5 "w") ∧
    windowHits (runHits emptyStore [(0, "a"), (1, "a")] "a") 3600 1 ≤ 60 :=
  ⟨(limiter_hour_rule_only [(0, "a"), (1, "a")] (by decide)).1 emptyStore 5 "w",
   (limiter_hour_rule_only [(0, "a"), (1, "a")] (by decide)).2 "a" 1⟩

/-- A pool session whose token expires at 995. -/
def botA : BotM := { email := "a", access_token := .valid 995, puid := none }

/-- Manager state with one account whose token expires at 995 and whose
session is in the pool. -/
def mgrStA : MgrState := {
  accounts := [{ email := "a", access_token := .valid 995, puid := none }],
  apibot_pool := [("a", botA)],
  wait_auth := [] }

/-- Claim C2.  Failing input for the claim: at time 1000 the account's
token already expired at 995, so the health check takes the eviction
branch; but remove_bot is invoked without await (src/botmgr.py line 148),
the coroutine never runs, and the session stays in the pool with an
expired token - while an actually awaited remove_bot would have emptied
the pool.  The account is still backlogged for re-login. -/
theorem check_account_keeps_near_expired_session :
    (check_accountRun 1000 mgrStA).1.apibot_pool = [("a", botA)] ∧
    token_expire botA.access_token - 1000 < 60 * 60 ∧
    token_expire botA.access_token < 1000 ∧
    (check_accountRun 1000 mgrStA).1.wait_auth = [("a", -5)] ∧
    remove_bot mgrStA.apibot_pool "a" = [] := by
  refine ⟨rfl, by decide, by decide, ?_, rfl⟩
  show ([("a", (-5 : Int))].mergeSort fun a b => a.2 ≤ b.2) = [("a", -5)]
  simp [List.mergeSort]

/-- A store with one user u1 anchored to conversation c1 owned by account
e0. -/
def dbU1 : Db := {
  users := [{ id := 0, openid := "u1", conversation_id := "c1" }],
  convs := [{ conversation_id := "c1", current_node := "p0", owner_email := "e0", user_id := 0 }],
  nextUserId := 1 }

/-- Claim C3.  Failing input for the claim: work maps an upstream
OpenAIError with code 404 to the reason "conversation_not_found", but the
failure branch of prompt clears the anchor only on the reason
"conversation_missing" (src/botmgr.py line 356) - a string work never
returns, as the last conjunct proves - so the user's conversation_id is
left untouched instead of being cleared. -/
theorem prompt_keeps_anchor_on_conversation_not_found :
    work [some ("e0", .openaiErr "Not found" 404)] 60 0 =
      some (.failure "conversation_not_found") ∧
    promptHandleFailure (some "u1") "conversation_not_found" dbU1 = dbU1 ∧
    (get_chat_info dbU1 "u1").conversation_id = some "c1" ∧
    (∀ env timeout retry reason,
      work env timeout retry = some (.failure reason) →
      reason ≠ "conversation_missing") := by
  refine ⟨rfl, rfl, rfl, ?_⟩
  intro env
  induction env with
  | nil =>
    intro timeout retry reason h
    simp [work] at h
  | cons step rest ih =>
    intro timeout retry reason h
    cases step with
    | none =>
      simp only [work] at h
      split at h
      · exact ih _ _ _ h
      · simp only [Option.some.injEq, WorkRes.failure.injEq] at h
        subst h
        decide
    | some pair =>
      obtain ⟨email, outcome⟩ := pair
      cases outcome with
      | openaiErr msg code =>
        simp only [work] at h
        split at h
        · simp only [Option.some.injEq, WorkRes.failure.injEq] at h
          subst h; decide
        · split at h
          · simp only [Option.some.injEq, WorkRes.failure.injEq] at h
            subst h; decide
          · simp only [Option.some.injEq, WorkRes.failure.injEq] at h
            subst h; decide
      | otherErr =>
        simp only [work] at h
        split at h
        · simp only [Option.some.injEq, WorkRes.failure.injEq] at h
          subst h; decide
        · exact ih _ _ _ h
      | success resp =>
        cases resp with
        | none =>
          simp only [work] at h
          split at h
          · simp only [Option.some.injEq, WorkRes.failure.injEq] at h
            subst h; decide
          · exact ih _ _ _ h
        | some d =>
          simp only [work, Option.some.injEq] at h
          exact absurd h (by simp)

/-- Claim C3, witness discharging the hypothesis of the last conjunct at a
concrete trace. -/
theorem prompt_keeps_anchor_witness :
    ("conversation_not_found" : String) ≠ "conversation_missing" :=
  prompt_keeps_anchor_on_conversation_not_found.2.2.2
    [some ("e0", .openaiErr "Not found" 404)] 60 0 "conversation_not_found" rfl

/-- Every element of updateFirst p f l is an element of l or the image
under f of one. -/
theorem mem_updateFirst {α : Type} (p : α → Bool) (f : α → α) (l : List α) (y : α)
    (hy : y ∈ updateFirst p f l) : ∃ x ∈ l, y = x ∨ y = f x := by
  induction l with
  | nil => simp [updateFirst] at hy
  | cons x xs ih =>
    simp only [updateFirst] at hy
    by_cases hp : p x = true
    · rw [if_pos hp] at hy
      rcases List.mem_cons.mp hy with h | h
      · exact ⟨x, List.mem_cons_self _ _, Or.inr h⟩
      · exact ⟨y, List.mem_cons_of_mem _ h, Or.inl rfl⟩
    · rw [if_neg hp] at hy
      rcases List.mem_cons.mp hy with h | h
      · exact ⟨x, List.mem_cons_self _ _, Or.inl h⟩
      · obtain ⟨x2, hx2, h2⟩ := ih h
        exact ⟨x2, List.mem_cons_of_mem _ hx2, h2⟩

/-- When f preserves the predicate, finding after updateFirst returns the
image of what finding returned before. -/
theorem find?_updateFirst_pres {α : Type} (p : α → Bool) (f : α → α) (l : List α)
    (hf : ∀ x, p x = true → p (f x) = true) :
    (updateFirst p f l).find? p = (l.find? p).map f := by
  induction l with
  | nil => simp [updateFirst]
  | cons x xs ih =>
    by_cases hp : p x = true
    · simp only [updateFirst, hp, if_true]
      rw [List.find?_cons_of_pos _ (hf x hp), List.find?_cons_of_pos _ hp]
      rfl
    · simp only [updateFirst]
      rw [if_neg hp, List.find?_cons_of_neg _ hp, List.find?_cons_of_neg _ hp]
      exact ih

/-- When f preserves the value of the predicate q, updateFirst with any
other predicate cannot make q findable. -/
theorem find?_updateFirst_other {α : Type} (q p : α → Bool) (f : α → α) (l : List α)
    (hl : l.find? q = none) (hf : ∀ x, q (f x) = q x) :
    (updateFirst p f l).find? q = none := by
  rw [List.find?_eq_none] at hl ⊢
  intro y hy
  obtain ⟨x, hx, hcase⟩ := mem_updateFirst p f l y hy
  rcases hcase with h | h
  · exact h ▸ hl x hx
  · rw [h]
    intro hq
    rw [hf x] at hq
    exact hl x hx hq

/-- A found element satisfies the predicate. -/
theorem find?_pred {α : Type} {p : α → Bool} {l : List α} {a : α}
    (h : l.find? p = some a) : p a = true :=
  List.find?_some h

/-- Claim C4, counterexample.  User u1 is anchored to conversation c1 (a
row owned by e0 exists); a successful turn served by e1 emits
conversation_id B and parent_id p1.  The claim says a new conversation row
is created and get_chat_info then returns B, p1, e1; instead record_chat
updates the stale eagerly-loaded row c1 and repoints the user to B without
creating a row for it, so get_chat_info returns all nulls. -/
theorem record_chat_repoint_loses_anchor :
    (record_chat "e1" "u1" "B" "p1" dbU1).map (fun db => get_chat_info db "u1") =
      .ok { user_id := some 0, email := none, conversation_id := none, parent_id := none } ∧
    (some "B" : Option String) ≠ none := ⟨rfl, by decide⟩

/-- Claim C4, amended.  After a successful prompt turn recorded by
record_chat: when the user row did not exist (and no row already carried
the emitted conversation_id), get_chat_info returns the emitted
conversation_id and parent_id and the serving email; when the user's
anchor already matched the emitted conversation_id, the matching row's
current_node is updated, so get_chat_info returns the emitted
conversation_id and parent_id with that row's stored owner_email; but
when the user was anchored to a different conversation whose row exists,
no row is created for the emitted conversation_id - the stale row's
current_node is updated and the user repointed - so get_chat_info returns
null email, conversation_id and parent_id. -/
theorem record_chat_get_chat_info_cases
    (db : Db) (email openid cid pid : String)
    (hopen : openid ≠ "") (hemail : email ≠ "") :
    (findUser db openid = none →
      loadConv db cid = none →
      ∀ db2, record_chat email openid cid pid db = .ok db2 →
        get_chat_info db2 openid =
          { user_id := some db.nextUserId, email := some email,
            conversation_id := some cid, parent_id := some pid }) ∧
    (∀ user conv, findUser db openid = some user →
      user.conversation_id = cid →
      loadConv db cid = some conv →
      ∀ db2, record_chat email openid cid pid db = .ok db2 →
        get_chat_info db2 openid =
          { user_id := some user.id, email := some conv.owner_email,
            conversation_id := some cid, parent_id := some pid }) ∧
    (∀ user, findUser db openid = some user →
      user.conversation_id ≠ cid →
      (loadConv db user.conversation_id).isSome = true →
      loadConv db cid = none →
      ∀ db2, record_chat email openid cid pid db = .ok db2 →
        get_chat_info db2 openid =
          { user_id := some user.id, email := none,
            conversation_id := none, parent_id := none }) := by
  refine ⟨?_, ?_, ?_⟩
  · -- fresh user
    intro hfind hload db2 hrec
    simp only [record_chat, if_neg hopen, if_neg hemail, hfind, Except.ok.injEq] at hrec
    subst hrec
    have hu : findUser { users := db.users ++ [{ id := db.nextUserId, openid := openid, conversation_id := cid }],
                         convs := db.convs ++ [{ conversation_id := cid, current_node := pid, owner_email := email, user_id := db.nextUserId }],
                         nextUserId := db.nextUserId + 1 } openid =
        some { id := db.nextUserId, openid := openid, conversation_id := cid } := by
      unfold findUser at hfind ⊢
      rw [List.find?_append, hfind]
      simp
    simp only [get_chat_info, hu]
    have hc : loadConv { users := db.users ++ [{ id := db.nextUserId, openid := openid, conversation_id := cid }],
                         convs := db.convs ++ [{ conversation_id := cid, current_node := pid, owner_email := email, user_id := db.nextUserId }],
                         nextUserId := db.nextUserId + 1 } cid =
        some { conversation_id := cid, current_node := pid, owner_email := email, user_id := db.nextUserId } := by
      unfold loadConv at hload ⊢
      rw [List.find?_append, hload]
      simp
    rw [hc]
  · -- matching anchor
    intro user conv hfind hcidmatch hload db2 hrec
    have hfind2 : db.users.find? (fun u => u.openid == openid) = some user := hfind
    have hload2 : db.convs.find? (fun c => c.conversation_id == cid) = some conv := hload
    have hcc : conv.conversation_id = cid := by simpa using find?_pred hload2
    simp only [record_chat, if_neg hopen, if_neg hemail, hfind] at hrec
    rw [hcidmatch, hload] at hrec
    simp only [Except.ok.injEq] at hrec
    subst hrec
    have hu := find?_updateFirst_pres (fun u => u.openid == openid)
      (fun u => { u with conversation_id := cid }) db.users (fun x hx => hx)
    have hc := find?_updateFirst_pres (fun c => c.conversation_id == conv.conversation_id)
      (fun c => { c with current_node := pid }) db.convs (fun x hx => hx)
    rw [hcc] at hc
    simp only [get_chat_info, findUser, loadConv]
    rw [hu, hfind2]
    simp only [Option.map_some']
    rw [hcc, hc, hload2]
    simp [hcc]
  · -- repoint to a different conversation
    intro user hfind hne hsnap hload db2 hrec
    obtain ⟨convOld, hconvOld⟩ := Option.isSome_iff_exists.mp hsnap
    have hfind2 : db.users.find? (fun u => u.openid == openid) = some user := hfind
    have hload2 : db.convs.find? (fun c => c.conversation_id == cid) = none := hload
    simp only [record_chat, if_neg hopen, if_neg hemail, hfind] at hrec
    rw [hconvOld] at hrec
    simp only [Except.ok.injEq] at hrec
    subst hrec
    have hu := find?_updateFirst_pres (fun u => u.openid == openid)
      (fun u => { u with conversation_id := cid }) db.users (fun x hx => hx)
    have hc := find?_updateFirst_other (fun c => c.conversation_id == cid)
      (fun c => c.conversation_id == convOld.conversation_id)
      (fun c => { c with current_node := pid }) db.convs hload2 (fun x => rfl)
    simp only [get_chat_info, findUser, loadConv]
    rw [hu, hfind2]
    simp only [Option.map_some']
    rw [hc]

/-- Claim C4, witness for the amended theorem: the fresh-user case at a
concrete store. -/
theorem record_chat_get_chat_info_cases_witness :
    get_chat_info { users := [{ id := 0, openid := "u9", conversation_id := "c9" }],
                    convs := [{ conversation_id := "c9", current_node := "p9", owner_email := "e9", user_id := 0 }],
                    nextUserId := 1 } "u9" =
      { user_id := some 0, email := some "e9", conversation_id := some "c9", parent_id := some "p9" } :=
  (record_chat_get_chat_info_cases { users := [], convs := [], nextUserId := 0 }
      "e9" "u9" "c9" "p9" (by decide) (by decide)).1 rfl rfl _ rfl

end ChatApi
